import Mathlib

/-
  Shallow embedding of the DSATutor multi-agent tutoring system.

  Source files embedded:
    - src/agents/EvalAgent.py   (EvaluatorAgent: _check_syntax, _run_conceptual_tests,
                                 _generate_feedback, _calculate_score, _suggest_improvements,
                                 _recommend_next_steps, evaluate_solution)
    - src/agents/hintAgent.py   (HintAgent: hint_history dict, get_progressive_hints)
    - src/agents/teacherAgent.py (TeacherAgent: student_progress dict, start_teaching_session)
    - src/orchestrator.py       (DSATutorSystem: start_learning_session,
                                 generate_practice_question, get_student_progress,
                                 _generate_recommendations)
    - src/knowledge_base.py     (Difficulty and Topic enumerations)

  Modelling conventions:
    - Python dicts keyed by strings are association lists (List (String × _)) with
      Python dict semantics: lookup finds the first (unique) binding, assignment
      replaces in place or appends a fresh binding at the end (insertion order).
    - Every LLM round trip is an external black box.  Only the PARSED outcome of a
      response matters to the embedded logic, so each call site takes the parse
      outcome as an explicit oracle argument: `none` models a response whose
      content json.loads rejects, `some d` a response parsed to a JSON object d.
      JSON objects read with dict.get(key, default) are structures whose fields are
      Options (`none` = key absent), read with `Option.getD`.
    - All numbers in the embedded code paths are integer-valued (scores are sums
      of 0/10/20/40, masteries are initialized to 0.0 and never written again,
      hint levels are ints), so they are embedded as Int.  The only genuine float
      operation, round(average_mastery, 1) in get_student_progress, is elided:
      the embedding keeps the exact rational quotient (no claim mentions it).
    - Methods that can propagate a Python exception to the caller return Except;
      methods that cannot return plain values.
-/

namespace DSATutor

/-! ## Python string primitives -/

/-- Whitespace characters removed by Python str.strip() with no argument:
space, tab, newline, carriage return, vertical tab, form feed. -/
def pyIsSpace (c : Char) : Bool :=
  c == ' ' || c == '\t' || c == '\n' || c == '\r' ||
  c == Char.ofNat 11 || c == Char.ofNat 12

/-- Python str.strip(): drop leading and trailing whitespace. -/
def pyStrip (s : List Char) : List Char :=
  ((s.dropWhile pyIsSpace).reverse.dropWhile pyIsSpace).reverse

/-- Does the first list occur at the head of the second? -/
def startsList : List Char → List Char → Bool
  | [], _ => true
  | _ :: _, [] => false
  | a :: as, b :: bs => a == b && startsList as bs

/-- Does `needle` occur as a contiguous sublist of `hay`? -/
def hasSub (needle : List Char) : List Char → Bool
  | [] => startsList needle []
  | c :: rest => startsList needle (c :: rest) || hasSub needle rest

/-- Python `needle in hay` on strings (substring containment). -/
def strContains (hay needle : String) : Bool :=
  hasSub needle.data hay.data

/-- Python str.lower(), restricted to ASCII case mapping (all the strings the
program tests with `in ... .lower()` are ASCII). -/
def pyLower (s : String) : String :=
  String.mk (s.data.map Char.toLower)

/-- Python `len(s.split(chr(10)))`: number of newline characters plus one. -/
def pyLineCount (s : String) : Nat :=
  (s.data.filter (fun c => c == '\n')).length + 1

/-! ## Association lists with Python dict semantics -/

/-- Python `d.get(k)` / `k in d` on a string-keyed dict. -/
def lookupD {α : Type} (d : List (String × α)) (k : String) : Option α :=
  match d with
  | [] => none
  | (k0, v) :: rest => if k0 == k then some v else lookupD rest k

/-- Python `d[k] = v`: replace the existing binding in place, else append. -/
def storeD {α : Type} (d : List (String × α)) (k : String) (v : α) :
    List (String × α) :=
  match d with
  | [] => [(k, v)]
  | (k0, v0) :: rest =>
    if k0 == k then (k0, v) :: rest else (k0, v0) :: storeD rest k v

theorem lookupD_storeD_self {α : Type} (d : List (String × α)) (k : String) (v : α) :
    lookupD (storeD d k v) k = some v := by
  induction d with
  | nil => simp [storeD, lookupD]
  | cons hd tl ih =>
    obtain ⟨k0, v0⟩ := hd
    by_cases h : (k0 == k) = true
    · simp [storeD, lookupD, h]
    · simp only [storeD, lookupD, h, Bool.false_eq_true, if_false, if_neg]
      exact ih

/-! ## EvaluatorAgent._check_syntax  (src/agents/EvalAgent.py lines 42-65)

The four issue strings appended by _check_syntax are represented by a closed
inductive of issue kinds (the message text carries no further structure). -/

inductive Issue where
  /-- "Code appears incomplete" -/
  | incomplete
  /-- "No function or class definition found" -/
  | noDefinition
  /-- "Potential infinite loop detected" -/
  | infiniteLoop
  /-- "Note: Imports detected - ensure allowed" -/
  | importsNote
deriving DecidableEq, Repr

/-- The issue list accumulated by _check_syntax, in source order. -/
def checkIssues (code : String) : List Issue :=
  -- if len(code.strip()) < 10: issues.append("Code appears incomplete")
  (if (pyStrip code.data).length < 10 then [Issue.incomplete] else [])
  -- if 'def ' not in code and 'class ' not in code: append("No function or class definition found")
  ++ (if !strContains code "def " && !strContains code "class " then
        [Issue.noDefinition] else [])
  -- if 'while True:' in code and 'break' not in code: append("Potential infinite loop detected")
  ++ (if strContains code "while True:" && !strContains code "break" then
        [Issue.infiniteLoop] else [])
  -- if 'import ' in code: append("Note: Imports detected ...")
  ++ (if strContains code "import " then [Issue.importsNote] else [])

/-- Result dict of _check_syntax. -/
structure StaticCheck where
  has_issues : Bool
  issues : List Issue
  code_length : Nat
  line_count : Nat
deriving DecidableEq, Repr

/-- EvaluatorAgent._check_syntax (the method is named for the Python `syntax`
keyword; the Lean identifier avoids that word). -/
def checkCode (code : String) : StaticCheck :=
  { has_issues := decide (0 < (checkIssues code).length)  -- len(issues) > 0
    issues := checkIssues code
    code_length := code.data.length                       -- len(code)
    line_count := pyLineCount code }                      -- len(code.split(chr(10)))

/-! ## EvaluatorAgent._run_conceptual_tests  (EvalAgent.py lines 67-102) -/

/-- JSON object shape requested from the LLM by _run_conceptual_tests.  Fields
are Options because a parsed response may lack any key; _calculate_score reads
them with dict.get defaults. -/
structure Assessment where
  approach_correct : Option Bool
  edge_cases_handled : Option (List String)
  time_complexity : Option String
  space_complexity : Option String
  potential_bugs : Option (List String)
deriving DecidableEq, Repr

/-- The literal dict returned by the bare-except branch of _run_conceptual_tests
(EvalAgent.py lines 96-102). -/
def conceptualDefault : Assessment :=
  { approach_correct := some false
    edge_cases_handled := some []
    time_complexity := some "Unknown"
    space_complexity := some "Unknown"
    potential_bugs := some ["Could not parse evaluation"] }

/-- EvaluatorAgent._run_conceptual_tests.  The argument is the json.loads
outcome on the LLM response content (none = parse raised).  The try/except
around the parse makes the method infallible: both branches return. -/
def runConceptualTests (parsed : Option Assessment) : Except String Assessment :=
  match parsed with
  | some data => Except.ok data           -- try: return json.loads(response.content)
  | none => Except.ok conceptualDefault   -- except: return the fixed default

/-! ## EvaluatorAgent._generate_feedback  (EvalAgent.py lines 104-140) -/

/-- JSON object shape requested by _generate_feedback. -/
structure Feedback where
  positives : Option (List String)
  improvements_needed : Option (List String)
  concept_gaps : Option (List String)
  specific_suggestions : Option (List String)
deriving DecidableEq, Repr

/-- The literal dict returned by the bare-except branch of _generate_feedback
(EvalAgent.py lines 135-140). -/
def feedbackDefault : Feedback :=
  { positives := some ["Attempted to solve the problem"]
    improvements_needed := some ["Code needs more work"]
    concept_gaps := some []
    specific_suggestions := some ["Review the problem requirements"] }

/-- EvaluatorAgent._generate_feedback: parse the response, or the fixed default
on parse failure.  Infallible for the same reason as runConceptualTests. -/
def generateFeedback (parsed : Option Feedback) : Feedback :=
  match parsed with
  | some data => data
  | none => feedbackDefault

/-! ## EvaluatorAgent._calculate_score  (EvalAgent.py lines 142-168) -/

/-- EvaluatorAgent._calculate_score.  Python accumulates in a float, but every
addend is one of 10/20/40, so Int is exact. -/
def calculateScore (static_check : StaticCheck) (test_results : Assessment)
    (feedback : Feedback) : Int :=
  let score0 : Int := 0
  -- if not syntax_check["has_issues"]: score += 20
  let score1 := if !static_check.has_issues then score0 + 20 else score0
  -- if test_results.get("approach_correct", False): score += 40
  let score2 := if test_results.approach_correct.getD false then score1 + 40 else score1
  -- edge_cases = test_results.get("edge_cases_handled", [])
  let edge_cases := test_results.edge_cases_handled.getD []
  let score3 :=
    if 2 ≤ edge_cases.length then score2 + 20
    else if edge_cases.length == 1 then score2 + 10
    else score2
  -- positives from feedback.get("positives", [])
  let positives := feedback.positives.getD []
  let score4 :=
    if 2 ≤ positives.length then score3 + 20
    else if positives.length == 1 then score3 + 10
    else score3
  min 100 score4

/-- The score formula as worded by the spec (section 4.3 step 4): start at 0,
add the four weighted sub-scores, clamp to [0,100].  Stated from the spec text,
to be compared with calculateScore. -/
def specScore (noIssues approachCorrect : Bool) (edgeCount positiveCount : Nat) : Int :=
  let total : Int :=
    (if noIssues then 20 else 0)
    + (if approachCorrect then 40 else 0)
    + (if 2 ≤ edgeCount then 20 else if edgeCount == 1 then 10 else 0)
    + (if 2 ≤ positiveCount then 20 else if positiveCount == 1 then 10 else 0)
  max 0 (min 100 total)

/-! ## EvaluatorAgent._suggest_improvements  (EvalAgent.py lines 170-210) -/

inductive Priority where
  | high
  | medium
deriving DecidableEq, Repr

/-- One JSON object from the code-improvement LLM response.  The third JSON
key is named for the Lean keyword `example`; the field is renamed sample. -/
structure CodeSuggestion where
  change : String
  reason : String
  sample : String
deriving DecidableEq, Repr

/-- A suggestion dict produced by _suggest_improvements: either
`{"type": "general", "suggestion": ..., "priority": ...}` built from the
feedback, or `{"type": "code", ...}` spread from a parsed LLM suggestion. -/
inductive Improvement where
  | general (suggestion : String) (priority : Priority)
  | codeSpec (change reason sample : String)
deriving DecidableEq, Repr

/-- EvaluatorAgent._suggest_improvements.  `parsed` is the json.loads outcome
on the code-suggestion response (the bare except around it just passes). -/
def suggestImprovements (feedback : Feedback)
    (parsed : Option (List CodeSuggestion)) : List Improvement :=
  -- for improvement in feedback.get("improvements_needed", []): append general dict
  let base := (feedback.improvements_needed.getD []).map (fun improvement =>
    Improvement.general improvement
      (if strContains (pyLower improvement) "critical" then Priority.high
       else Priority.medium))
  let withCode :=
    match parsed with
    | some code_suggestions =>
      base ++ code_suggestions.map (fun (s : CodeSuggestion) =>
        Improvement.codeSpec s.change s.reason s.sample)
    | none => base  -- except: pass
  withCode.take 5   -- return suggestions[:5]

/-! ## EvaluatorAgent._recommend_next_steps  (EvalAgent.py lines 212-237) -/

def recommendNextSteps (score : Int) : List String :=
  if 90 ≤ score then
    ["Try a harder variation of this problem",
     "Explain your solution to reinforce learning",
     "Help another student with similar problem"]
  else if 70 ≤ score then
    ["Review the suggested improvements",
     "Try the problem again with optimizations",
     "Practice similar problems"]
  else if 50 ≤ score then
    ["Review the core concept",
     "Study the solution approach",
     "Try a simpler version first"]
  else
    ["Review fundamental concepts",
     "Start with easier problems",
     "Ask for more hints on this problem"]

/-! ## EvaluatorAgent.evaluate_solution  (EvalAgent.py lines 15-40) -/

/-- Parse outcomes of the three LLM calls issued by one evaluate_solution run
(conceptual tests, feedback, code suggestions), supplied as oracles. -/
structure EvalOracle where
  conceptual : Option Assessment
  feedback : Option Feedback
  code_suggestions : Option (List CodeSuggestion)
deriving DecidableEq, Repr

/-- The dict returned by evaluate_solution. -/
structure EvalResult where
  score : Int
  static_check : StaticCheck
  test_results : Assessment
  feedback : Feedback
  improvements : List Improvement
  correctness : Bool
  next_steps : List String
deriving DecidableEq, Repr

/-- EvaluatorAgent.evaluate_solution.  The problem dict only feeds prompt text,
so it does not appear; `student_code` feeds the static check.  An exception
escaping any step would propagate, hence the Except result type. -/
def evaluateSolution (student_code : String) (oracle : EvalOracle) :
    Except String EvalResult :=
  let static_check := checkCode student_code
  match runConceptualTests oracle.conceptual with
  | Except.error e => Except.error e
  | Except.ok test_results =>
    let feedback := generateFeedback oracle.feedback
    let score := calculateScore static_check test_results feedback
    let improvements := suggestImprovements feedback oracle.code_suggestions
    Except.ok
      { score := score
        static_check := static_check
        test_results := test_results
        feedback := feedback
        improvements := improvements
        correctness := decide (70 ≤ score)   -- "correctness": score >= 70
        next_steps := recommendNextSteps score }

/-! ## HintAgent  (src/agents/hintAgent.py)

The four leveled generator methods (_get_level_0_hint .. _get_level_3_hint)
each issue one LLM call and return its text; only WHICH generator runs is
decided by the embedded logic, so a hint is represented by its content class. -/

inductive HintContent where
  /-- _get_level_0_hint: conceptual nudge -/
  | level0
  /-- _get_level_1_hint: approach-specific -/
  | level1
  /-- _get_level_2_hint: implementation-specific -/
  | level2
  /-- _get_level_3_hint: near-solution (terminal content class) -/
  | level3
deriving DecidableEq, Repr

/-- self.hint_history: problem_id -> hint_level. -/
abbrev HintHistory : Type := List (String × Int)

/-- The dict returned by get_progressive_hints. -/
structure HintResult where
  hint : HintContent
  hint_level : Int
  max_level : Int
  next_level_available : Bool
deriving DecidableEq, Repr

/-- HintAgent.get_progressive_hints (hintAgent.py lines 14-43).  `problem_id`
stands for problem.get("id", "unknown"); `hint_level` is the caller argument
(default 0 at every call site with no explicit level).  Returns the result
dict together with the updated hint_history. -/
def getProgressiveHints (hint_history : HintHistory) (problem_id : String)
    (hint_level : Int) : HintResult × HintHistory :=
  -- if problem_id not in self.hint_history: self.hint_history[problem_id] = 0
  let hist1 : HintHistory :=
    if (lookupD hint_history problem_id).isNone then
      storeD hint_history problem_id 0
    else hint_history
  -- current_level = max(self.hint_history[problem_id], hint_level)
  let current_level := max ((lookupD hist1 problem_id).getD 0) hint_level
  -- dispatch on current_level (0 / 1 / 2 / else)
  let hint :=
    if current_level == 0 then HintContent.level0
    else if current_level == 1 then HintContent.level1
    else if current_level == 2 then HintContent.level2
    else HintContent.level3
  -- self.hint_history[problem_id] = current_level + 1
  let hist2 := storeD hist1 problem_id (current_level + 1)
  ({ hint := hint
     hint_level := current_level
     max_level := 3
     next_level_available := decide (current_level < 3) }, hist2)

/-- hint_level values returned by n consecutive get_progressive_hints calls on
the same problem id with the default argument hint_level=0, starting from the
given history. -/
def hintCallLevels : Nat → HintHistory → String → List Int
  | 0, _, _ => []
  | Nat.succ n, hist, pid =>
    let step := getProgressiveHints hist pid 0
    step.1.hint_level :: hintCallLevels n step.2 pid

/-! ## knowledge_base.py enumerations  (lines 29-45) -/

inductive Difficulty where
  | easy
  | medium
  | hard
deriving DecidableEq, Repr

/-- The .value string of each Difficulty member. -/
def Difficulty.value : Difficulty → String
  | .easy => "Easy"
  | .medium => "Medium"
  | .hard => "Hard"

/-- Python `Difficulty(s)`: enum lookup by value, raising ValueError when no
member has the given value (case-sensitive). -/
def difficultyOfString (s : String) : Except String Difficulty :=
  if s == "Easy" then Except.ok Difficulty.easy
  else if s == "Medium" then Except.ok Difficulty.medium
  else if s == "Hard" then Except.ok Difficulty.hard
  else Except.error "ValueError: not a valid Difficulty"

/-- The .value strings of the Topic enum members, in declaration order. -/
def topicValues : List String :=
  ["Arrays", "Linked Lists", "Trees", "Graphs", "Sorting", "Searching",
   "Dynamic Programming", "Recursion", "Backtracking", "Queues", "Stacks"]

/-! ## TeacherAgent  (src/agents/teacherAgent.py) -/

/-- The per-student record created by start_teaching_session (teacherAgent.py
lines 35-40).  These are the ONLY keys any stored record ever has: nothing in
the repository writes topics_mastery, weak_areas or learning_path after this
initialization, and no code path adds further keys. -/
structure SProg where
  total_sessions : Int
  topics_mastery : List (String × Int)
  weak_areas : List String
  learning_path : List String
deriving DecidableEq, Repr

/-- The fresh record: mastery 0 for every Topic member, empty lists. -/
def initStudentProgress : SProg :=
  { total_sessions := 0
    topics_mastery := topicValues.map (fun t => (t, 0))
    weak_areas := []
    learning_path := [] }

/-- self.current_session dict (start_time is an external clock value). -/
structure SessionRec where
  session_id : String
  student_id : String
  topics : List String
  difficulty : Difficulty
  start_time : Int
deriving DecidableEq, Repr

structure TeacherState where
  student_progress : List (String × SProg)
  current_session : Option SessionRec
deriving DecidableEq, Repr

/-- External inputs consumed by one start_teaching_session call: the uuid4
session id, the datetime.now() clock value, the welcome-message LLM response,
and the learning plan, whose construction queries the external similarity
search (its items feed no further embedded logic). -/
structure TeachExt where
  session_id : String
  start_time : Int
  welcome_message : String
  learning_plan : List String
deriving DecidableEq, Repr

/-- The dict returned by start_teaching_session. -/
structure TeachSessionInfo where
  session_id : String
  welcome_message : String
  learning_plan : List String
  first_concept : Option String
deriving DecidableEq, Repr

/-- TeacherAgent.start_teaching_session (teacherAgent.py lines 18-52). -/
def startTeachingSession (teacher : TeacherState) (student_id : String)
    (topics : List String) (difficulty : Difficulty) (ext : TeachExt) :
    TeachSessionInfo × TeacherState :=
  let current_session : SessionRec :=
    { session_id := ext.session_id
      student_id := student_id
      topics := topics
      difficulty := difficulty
      start_time := ext.start_time }
  -- if student_id not in self.student_progress: initialize the record
  let progress1 :=
    if (lookupD teacher.student_progress student_id).isNone then
      storeD teacher.student_progress student_id initStudentProgress
    else teacher.student_progress
  -- self.student_progress[student_id]["total_sessions"] += 1
  let record := (lookupD progress1 student_id).getD initStudentProgress
  let progress2 := storeD progress1 student_id
    { record with total_sessions := record.total_sessions + 1 }
  ({ session_id := ext.session_id
     welcome_message := ext.welcome_message
     learning_plan := ext.learning_plan
     first_concept := ext.learning_plan.head? },  -- plan[0] if plan else None
   { student_progress := progress2, current_session := some current_session })

/-! ## QuestionGeneratorAgent.generate_question  (src/agents/QGenAgent.py) -/

/-- The claim-relevant shape of a generated problem dict (further keys such as
examples, hints and generated_at feed no embedded logic and are elided). -/
structure GenProblem where
  id : String
  title : String
  description : String
  topic : String
  difficulty : String
deriving DecidableEq, Repr

/-- External inputs of one generate_question call: the json.loads outcome on
the LLM response (none = JSONDecodeError), the raw response text (used by the
fallback), the generated hash id and the fallback uuid fragment. -/
structure QGenExt where
  parsed : Option GenProblem
  response_content : String
  hash_id : String
  uuid8 : String
deriving DecidableEq, Repr

/-- QuestionGeneratorAgent.generate_question (QGenAgent.py lines 51-100):
on parse success the metadata keys are overwritten on the parsed dict; on
JSONDecodeError _create_fallback_problem builds the fixed fallback dict. -/
def generateQuestion (topic : String) (difficulty : Difficulty) (ext : QGenExt) :
    GenProblem :=
  match ext.parsed with
  | some base =>
    { base with topic := topic, difficulty := difficulty.value, id := ext.hash_id }
  | none =>
    { id := "fallback_" ++ ext.uuid8
      title := topic ++ " Problem"
      description := String.mk (ext.response_content.data.take 500)  -- content[:500]
      topic := topic
      difficulty := difficulty.value }

/-! ## DSATutorSystem orchestrator  (src/orchestrator.py) -/

/-- One self.session_history entry (orchestrator.py lines 36-41); difficulty
is kept as the raw caller string there. -/
structure OrchSession where
  session_id : String
  start_time : Int
  topics : List String
  difficulty : String
deriving DecidableEq, Repr

/-- The mutable state owned by one DSATutorSystem instance and its agents. -/
structure TutorState where
  teacher : TeacherState
  hint_history : List (String × Int)
  current_student : Option String
  session_history : List OrchSession
deriving DecidableEq, Repr

/-- The state built by DSATutorSystem.__init__: every map empty. -/
def initTutorState : TutorState :=
  { teacher := { student_progress := [], current_session := none }
    hint_history := []
    current_student := none
    session_history := [] }

/-- DSATutorSystem.start_learning_session (orchestrator.py lines 27-43).
Difficulty(difficulty) runs first; its ValueError escapes to the caller
before any state is touched. -/
def startLearningSession (st : TutorState) (student_id : String)
    (topics : List String) (difficulty : String) (ext : TeachExt) :
    Except String (TeachSessionInfo × TutorState) :=
  match difficultyOfString difficulty with
  | Except.error e => Except.error e
  | Except.ok difficulty_enum =>
    let step := startTeachingSession st.teacher student_id topics difficulty_enum ext
    Except.ok (step.1,
      { st with
        teacher := step.2
        current_student := some student_id
        session_history := st.session_history ++
          [{ session_id := step.1.session_id
             start_time := ext.start_time
             topics := topics
             difficulty := difficulty }] })

/-- DSATutorSystem.generate_practice_question (orchestrator.py lines 50-56).
The weakness list only feeds prompt text.  Difficulty(difficulty) runs first
and its ValueError escapes; no state is read or written. -/
def generatePracticeQuestion (topic : String) (difficulty : String)
    (ext : QGenExt) : Except String GenProblem :=
  match difficultyOfString difficulty with
  | Except.error e => Except.error e
  | Except.ok difficulty_enum => Except.ok (generateQuestion topic difficulty_enum ext)

/-- DSATutorSystem._generate_recommendations (orchestrator.py lines 142-157).
It is handed the STORED per-student record.  progress.get("weak_areas", [])
reads that record's weak_areas entry; progress.get("strong_areas", []) reads a
key that stored records never contain (see SProg), so it yields the default
empty list. -/
def generateRecommendations (progress : SProg) : List String :=
  let recs1 :=
    if progress.total_sessions < 3 then
      ["Complete more practice sessions to establish baseline"]
    else []
  -- weak = progress.get("weak_areas", [])
  let weak := progress.weak_areas
  let recs2 :=
    if weak.isEmpty then []
    else ["Focus on improving: " ++ String.intercalate ", " (weak.take 3)]
  -- strong = progress.get("strong_areas", []): the key is absent from every
  -- stored record, so the .get default [] is returned
  let strong : List String := []
  let recs3 :=
    if strong.isEmpty then []
    else ["Leverage your strength in " ++ strong.headD "" ++
          " to tackle harder problems"]
  recs1 ++ recs2 ++ recs3

/-- The report dict built by get_student_progress for a known student.
average_mastery keeps the exact quotient; Python additionally applies
round(x, 1) to a float, which no claim touches. -/
structure ProgressData where
  student_id : String
  total_sessions : Int
  average_mastery : Rat
  strong_areas : List String
  weak_areas : List String
  recommendations : List String
deriving DecidableEq, Repr

/-- get_student_progress returns one of two dict shapes. -/
inductive ProgressReport where
  /-- the dict literal `\x7b"error": "Student not found"\x7d` -/
  | notFound (error : String)
  | report (data : ProgressData)
deriving DecidableEq, Repr

/-- DSATutorSystem.get_student_progress (orchestrator.py lines 116-140).
The method only reads state, so the returned state is the input state. -/
def getStudentProgress (st : TutorState) (student_id : String) :
    ProgressReport × TutorState :=
  -- if student_id not in self.teacher.student_progress: return error dict
  match lookupD st.teacher.student_progress student_id with
  | none => (ProgressReport.notFound "Student not found", st)
  | some progress =>
    -- total_mastery = sum(progress["topics_mastery"].values())
    let total_mastery : Int := (progress.topics_mastery.map (fun tm => tm.2)).sum
    -- avg = total/len(...) if progress["topics_mastery"] else 0
    -- (the float quotient is modelled as the exact rational total/len)
    let avg_mastery : Rat :=
      if progress.topics_mastery.isEmpty then 0
      else mkRat total_mastery progress.topics_mastery.length
    -- strong_areas / weak_areas list comprehensions over .items()
    let strong_areas :=
      (progress.topics_mastery.filter (fun tm => 70 ≤ tm.2)).map (fun tm => tm.1)
    let weak_areas :=
      (progress.topics_mastery.filter (fun tm => tm.2 < 50)).map (fun tm => tm.1)
    (ProgressReport.report
      { student_id := student_id
        total_sessions := progress.total_sessions
        average_mastery := avg_mastery
        strong_areas := strong_areas
        weak_areas := weak_areas
        recommendations := generateRecommendations progress }, st)

/-! ## Shared concrete states for witnesses and counterexamples -/

/-- A fixed batch of external inputs for a teaching session. -/
def sampleTeachExt : TeachExt :=
  { session_id := "s1", start_time := 0, welcome_message := "welcome",
    learning_plan := [] }

/-- A fixed batch of external inputs for a question generation. -/
def sampleQGenExt : QGenExt :=
  { parsed := none, response_content := "", hash_id := "gen_0000",
    uuid8 := "abcd1234" }

/-- The teacher state after three start_teaching_session calls for the same
student (as issued by three start_learning_session calls). -/
def teacherAfterThreeSessions : TeacherState :=
  (startTeachingSession
    (startTeachingSession
      (startTeachingSession initTutorState.teacher
        "alice_123" ["Arrays"] Difficulty.medium sampleTeachExt).2
      "alice_123" ["Arrays"] Difficulty.medium sampleTeachExt).2
    "alice_123" ["Arrays"] Difficulty.medium sampleTeachExt).2

def stateAfterThreeSessions : TutorState :=
  { initTutorState with teacher := teacherAfterThreeSessions }

/-- The stored record of alice_123 in stateAfterThreeSessions. -/
def storedAliceRecord : SProg :=
  { total_sessions := 3
    topics_mastery := topicValues.map (fun t => (t, 0))
    weak_areas := []
    learning_path := [] }

/-! ## Helper lemmas -/

theorem runConceptualTests_ok (p : Option Assessment) :
    runConceptualTests p = Except.ok (p.getD conceptualDefault) := by
  cases p <;> rfl

theorem calculateScore_bounds (sc : StaticCheck) (t : Assessment) (f : Feedback) :
    0 ≤ calculateScore sc t f ∧ calculateScore sc t f ≤ 100 := by
  simp only [calculateScore]
  split_ifs <;> omega

/-! ## Claim theorems -/

/-- C1: the claim asserts the stored hint level and the returned hint_level
never exceed the configured maximum of 3 across any number of consecutive
get_hint calls with no explicit level argument.  The code violates it: on a
fresh problem id the fifth such call RETURNS hint_level = 4 while the same
result dict declares max_level = 3, and the stored level afterwards is 5.
This theorem evaluates the embedded code at that failing input. -/
theorem hint_level_exceeds_declared_max :
    hintCallLevels 5 [] "two_sum" = [0, 1, 2, 3, 4]
    ∧ ((getProgressiveHints [("two_sum", 4)] "two_sum" 0).1).hint_level = 4
    ∧ ((getProgressiveHints [("two_sum", 4)] "two_sum" 0).1).max_level = 3
    ∧ lookupD ((getProgressiveHints [("two_sum", 4)] "two_sum" 0).2) "two_sum"
        = some 5 := by
  decide

/-- C2: _calculate_score computes exactly the spec formula (start at 0; +20 on
a clean static check; +40 on approach_correct; +20/+10/0 by edge-case count;
+20/+10/0 by positive count; clamp to [0,100]), and the instance (no issues,
approach correct, 2 edge cases, 2 positives) scores exactly 100. -/
theorem calculate_score_matches_spec :
    (∀ (sc : StaticCheck) (t : Assessment) (f : Feedback),
      calculateScore sc t f =
        specScore (!sc.has_issues) (t.approach_correct.getD false)
          (t.edge_cases_handled.getD []).length (f.positives.getD []).length)
    ∧ calculateScore
        { has_issues := false, issues := [], code_length := 20, line_count := 1 }
        { approach_correct := some true, edge_cases_handled := some ["a", "b"],
          time_complexity := none, space_complexity := none, potential_bugs := none }
        { positives := some ["x", "y"], improvements_needed := none,
          concept_gaps := none, specific_suggestions := none } = 100 := by
  constructor
  · intro sc t f
    simp only [calculateScore, specScore]
    split_ifs <;> omega
  · decide

/-- C3: every evaluate_solution call that returns does so with a score in
[0,100] and a correctness flag equal to (score >= 70). -/
theorem evaluate_solution_score_in_range :
    ∀ (code : String) (oracle : EvalOracle),
      ∃ r : EvalResult, evaluateSolution code oracle = Except.ok r
        ∧ 0 ≤ r.score ∧ r.score ≤ 100
        ∧ r.correctness = decide (70 ≤ r.score) := by
  intro code oracle
  obtain ⟨oc, ofb, ocs⟩ := oracle
  cases oc with
  | none =>
    exact ⟨_, rfl, (calculateScore_bounds (checkCode code) conceptualDefault
      (generateFeedback ofb)).1, (calculateScore_bounds (checkCode code)
      conceptualDefault (generateFeedback ofb)).2, rfl⟩
  | some a =>
    exact ⟨_, rfl, (calculateScore_bounds (checkCode code) a
      (generateFeedback ofb)).1, (calculateScore_bounds (checkCode code) a
      (generateFeedback ofb)).2, rfl⟩

/-- C4: when the conceptual-assessment response content is not parseable as
JSON, _run_conceptual_tests returns (does not raise) exactly the documented
default object: approach_correct false, empty edge-case list, time and space
complexity "Unknown", the single bug note "Could not parse evaluation". -/
theorem conceptual_parse_failure_yields_default :
    runConceptualTests none = Except.ok conceptualDefault
    ∧ conceptualDefault.approach_correct = some false
    ∧ conceptualDefault.edge_cases_handled = some []
    ∧ conceptualDefault.time_complexity = some "Unknown"
    ∧ conceptualDefault.space_complexity = some "Unknown"
    ∧ conceptualDefault.potential_bugs = some ["Could not parse evaluation"] :=
  ⟨rfl, rfl, rfl, rfl, rfl, rfl⟩

/-- C5 counterexample: the claim says that whenever the mastery-derived weak
set (mastery < 50) is non-empty, the recommendations include one naming its
first three topics.  After three sessions every topic has mastery 0, so the
computed weak set is all eleven topics, yet the recommendation list is empty:
_generate_recommendations reads the stored weak_areas/strong_areas entries
(initialized empty, never written), not the computed partition. -/
theorem recommendations_ignore_weak_partition :
    (getStudentProgress stateAfterThreeSessions "alice_123").1 =
      ProgressReport.report
        { student_id := "alice_123"
          total_sessions := 3
          average_mastery := 0
          strong_areas := []
          weak_areas := topicValues
          recommendations := [] }
    ∧ topicValues ≠ [] := by
  constructor
  · decide
  · decide

/-- C5 amended: get_student_progress partitions topics into strong (>= 70)
and weak (< 50) from the mastery map as claimed, but the recommendations are
derived from the record's STORED weak_areas list (the baseline rule on
session count is as claimed; the leverage rule reads a strong_areas key that
stored records never contain, so it never contributes). -/
theorem recommendations_use_stored_lists :
    ∀ (st : TutorState) (sid : String) (rec : SProg),
      lookupD st.teacher.student_progress sid = some rec →
      (getStudentProgress st sid).1 = ProgressReport.report
        { student_id := sid
          total_sessions := rec.total_sessions
          average_mastery :=
            if rec.topics_mastery.isEmpty then 0
            else mkRat (rec.topics_mastery.map (fun tm => tm.2)).sum
                   rec.topics_mastery.length
          strong_areas :=
            (rec.topics_mastery.filter (fun tm => 70 ≤ tm.2)).map (fun tm => tm.1)
          weak_areas :=
            (rec.topics_mastery.filter (fun tm => tm.2 < 50)).map (fun tm => tm.1)
          recommendations :=
            (if rec.total_sessions < 3 then
              ["Complete more practice sessions to establish baseline"]
             else [])
            ++ (if rec.weak_areas.isEmpty then []
                else ["Focus on improving: " ++
                      String.intercalate ", " (rec.weak_areas.take 3)]) } := by
  intro st sid rec h
  simp only [getStudentProgress, h, generateRecommendations, List.isEmpty_nil,
    if_true, List.append_nil]

theorem recommendations_use_stored_lists_witness :
    lookupD stateAfterThreeSessions.teacher.student_progress "alice_123"
      = some storedAliceRecord
    ∧ (getStudentProgress stateAfterThreeSessions "alice_123").1 =
        ProgressReport.report
          { student_id := "alice_123"
            total_sessions := storedAliceRecord.total_sessions
            average_mastery :=
              if storedAliceRecord.topics_mastery.isEmpty then 0
              else mkRat (storedAliceRecord.topics_mastery.map (fun tm => tm.2)).sum
                     storedAliceRecord.topics_mastery.length
            strong_areas :=
              (storedAliceRecord.topics_mastery.filter (fun tm => 70 ≤ tm.2)).map
                (fun tm => tm.1)
            weak_areas :=
              (storedAliceRecord.topics_mastery.filter (fun tm => tm.2 < 50)).map
                (fun tm => tm.1)
            recommendations :=
              (if storedAliceRecord.total_sessions < 3 then
                ["Complete more practice sessions to establish baseline"]
               else [])
              ++ (if storedAliceRecord.weak_areas.isEmpty then []
                  else ["Focus on improving: " ++
                        String.intercalate ", " (storedAliceRecord.weak_areas.take 3)]) } :=
  ⟨by decide,
   recommendations_use_stored_lists stateAfterThreeSessions "alice_123"
     storedAliceRecord (by decide)⟩

/-- C6: a hint request with requested level >= 3 dispatches to the level-3
(terminal, near-solution) generator rather than erroring, for EVERY problem
id - fresh ones (first-ever request) and ones with existing hint history
alike, and for requests above 3 as well: current_level = max(stored, level)
is at least the requested level, so the else branch runs. -/
theorem level_three_request_terminal :
    ∀ (hist : HintHistory) (pid : String) (lvl : Int),
      3 ≤ lvl →
      ((getProgressiveHints hist pid lvl).1).hint = HintContent.level3 := by
  have key : ∀ (m : Int), 3 ≤ m →
      (if m == (0 : Int) then HintContent.level0
       else if m == (1 : Int) then HintContent.level1
       else if m == (2 : Int) then HintContent.level2
       else HintContent.level3) = HintContent.level3 := by
    intro m hm
    have h0 : (m == (0 : Int)) = false := by
      simp only [beq_eq_false_iff_ne, ne_eq]; omega
    have h1 : (m == (1 : Int)) = false := by
      simp only [beq_eq_false_iff_ne, ne_eq]; omega
    have h2 : (m == (2 : Int)) = false := by
      simp only [beq_eq_false_iff_ne, ne_eq]; omega
    simp only [h0, h1, h2, Bool.false_eq_true, if_false]
  intro hist pid lvl h3
  simp only [getProgressiveHints]
  exact key _ (le_trans h3 (le_max_right _ _))

theorem level_three_request_terminal_witness :
    ((3 : Int) ≤ 3
      ∧ ((getProgressiveHints [] "two_sum" 3).1).hint = HintContent.level3)
    ∧ ((3 : Int) ≤ 5
      ∧ ((getProgressiveHints [("two_sum", 1)] "two_sum" 5).1).hint =
          HintContent.level3) :=
  ⟨⟨by decide, level_three_request_terminal [] "two_sum" 3 (by decide)⟩,
   ⟨by decide,
    level_three_request_terminal [("two_sum", 1)] "two_sum" 5 (by decide)⟩⟩

/-- C7: the static check flags incomplete iff the stripped code has fewer
than 10 characters, no-definition iff neither marker occurs, the
infinite-loop warning iff the unconditional loop marker occurs without any
break marker, the imports note iff the import marker occurs, and has_issues
iff the issue list is non-empty; on the code "x=1" it yields exactly the
incomplete and no-definition issues with has_issues true. -/
theorem static_check_characterization :
    (∀ code : String,
      (Issue.incomplete ∈ (checkCode code).issues ↔
        (pyStrip code.data).length < 10)
      ∧ (Issue.noDefinition ∈ (checkCode code).issues ↔
          (strContains code "def " = false ∧ strContains code "class " = false))
      ∧ (Issue.infiniteLoop ∈ (checkCode code).issues ↔
          (strContains code "while True:" = true ∧ strContains code "break" = false))
      ∧ (Issue.importsNote ∈ (checkCode code).issues ↔
          strContains code "import " = true)
      ∧ ((checkCode code).has_issues = true ↔ (checkCode code).issues ≠ []))
    ∧ (checkCode "x=1").issues = [Issue.incomplete, Issue.noDefinition]
    ∧ (checkCode "x=1").has_issues = true := by
  refine ⟨fun code => ⟨?_, ?_, ?_, ?_, ?_⟩, by decide, by decide⟩ <;>
    simp only [checkCode, checkIssues, decide_eq_true_eq, List.length_pos,
      ne_eq] <;>
    split_ifs <;>
    simp_all [List.mem_append]

/-- C8: get_progress on a student id with no stored record returns the
structured not-found dict, not an exception and not a success report. -/
theorem unknown_student_not_found :
    ∀ (st : TutorState) (sid : String),
      lookupD st.teacher.student_progress sid = none →
      (getStudentProgress st sid).1 = ProgressReport.notFound "Student not found" := by
  intro st sid h
  simp only [getStudentProgress, h]

theorem unknown_student_not_found_witness :
    lookupD initTutorState.teacher.student_progress "alice_123" = none
    ∧ (getStudentProgress initTutorState "alice_123").1 =
        ProgressReport.notFound "Student not found" :=
  ⟨rfl, unknown_student_not_found initTutorState "alice_123" rfl⟩

/-- C9: get_progress is a pure read: for every state and every student id
(known or not) the entire mutable state - progress map, hint history,
session history, current pointers - is returned unchanged. -/
theorem get_progress_leaves_state_unchanged :
    ∀ (st : TutorState) (sid : String), (getStudentProgress st sid).2 = st := by
  intro st sid
  cases hl : lookupD st.teacher.student_progress sid with
  | none => simp only [getStudentProgress, hl]
  | some p => simp only [getStudentProgress, hl]

/-- C10: for a difficulty string outside the closed set Easy/Medium/Hard,
start_learning_session and generate_practice_question propagate the
ValueError from the Difficulty enum conversion instead of returning a
structured error result or falling back to a default difficulty. -/
theorem invalid_difficulty_raises :
    ∀ (st : TutorState) (student_id : String) (topics : List String)
      (d : String) (extT : TeachExt) (extQ : QGenExt) (topic : String),
      d ≠ "Easy" → d ≠ "Medium" → d ≠ "Hard" →
      startLearningSession st student_id topics d extT =
        Except.error "ValueError: not a valid Difficulty"
      ∧ generatePracticeQuestion topic d extQ =
        Except.error "ValueError: not a valid Difficulty" := by
  intro st student_id topics d extT extQ topic hE hM hH
  have h1 : (d == "Easy") = false := by simp [beq_eq_false_iff_ne]; exact hE
  have h2 : (d == "Medium") = false := by simp [beq_eq_false_iff_ne]; exact hM
  have h3 : (d == "Hard") = false := by simp [beq_eq_false_iff_ne]; exact hH
  constructor <;>
    simp only [startLearningSession, generatePracticeQuestion,
      difficultyOfString, h1, h2, h3, Bool.false_eq_true, if_false]

theorem invalid_difficulty_raises_witness :
    (("easy" : String) ≠ "Easy" ∧ ("easy" : String) ≠ "Medium"
      ∧ ("easy" : String) ≠ "Hard")
    ∧ (startLearningSession initTutorState "alice_123" ["Arrays"] "easy"
        sampleTeachExt = Except.error "ValueError: not a valid Difficulty"
      ∧ generatePracticeQuestion "Arrays" "easy" sampleQGenExt =
        Except.error "ValueError: not a valid Difficulty") :=
  ⟨⟨by decide, by decide, by decide⟩,
   invalid_difficulty_raises initTutorState "alice_123" ["Arrays"] "easy"
     sampleTeachExt sampleQGenExt "Arrays" (by decide) (by decide) (by decide)⟩

end DSATutor
